import Mathlib

/-!
Shallow embedding of `src/tweetnlp/text_classification/trainer.py`
(`TrainerTextClassification`): Python dictionaries become association
lists with overwrite-on-insert semantics, the filesystem becomes an
association list from paths to artifacts, floating-point logits become
real numbers, and the external collaborators (model provider, training
engine, metric library, shell) are modelled from the specification's
description of their interfaces.
-/

namespace TweetNLP

/-- Python `dict` assignment `d[k] = v`: overwrite the value in place if
the key is present (keeping its position), append otherwise. -/
def dictInsert {α β : Type} [DecidableEq α] (d : List (α × β)) (k : α) (v : β) : List (α × β) :=
  match d with
  | [] => [(k, v)]
  | (k0, v0) :: rest => if k0 = k then (k, v) :: rest else (k0, v0) :: dictInsert rest k v

/-- Python `dict` lookup `d[k]` / `d.get(k)`: first (hence, for a real
dict, only) binding of the key. -/
def dictLookup {α β : Type} [DecidableEq α] (d : List (α × β)) (k : α) : Option β :=
  match d with
  | [] => none
  | (k0, v0) :: rest => if k0 = k then some v0 else dictLookup rest k

/-- JSON-like values as stored in the persisted artifacts and in
attribute maps (`TrainingArguments` fields, hyperparameter dicts). -/
inductive Json where
  | num (q : ℚ)
  | str (s : String)
  | obj (entries : List (String × Json))

/-- A Model Bundle as the spec's data model describes it: keyed by the
source identifier it was loaded from, plus the training-argument map it
was last fine-tuned with (`none` for a freshly loaded model). -/
structure Model where
  source : String
  trainedWith : Option (List (String × Json))

/-- Modelled from the spec: the external model provider
(`tweetnlp.util.load_model`, not under `src/`) returns a Model Bundle
keyed by the given model identifier or local path. -/
def loadModel (source : String) : Model :=
  { source := source, trainedWith := none }

/-- Modelled from the spec: the external training engine
(`transformers.Trainer.train`), given a model and a training-argument
map, returns the model fine-tuned with exactly those arguments. -/
def trainModel (m : Model) (args : List (String × Json)) : Model :=
  { source := m.source, trainedWith := some args }

/-- Artifacts that can live at a path: JSON files, saved model
directories, plain text files (README). -/
inductive Artifact where
  | json (j : Json)
  | modelDir (m : Model)
  | text (s : String)

/-- The durable store written by the orchestrator: path to artifact. -/
abbrev FS := List (String × Artifact)

def fsWrite (fs : FS) (p : String) (a : Artifact) : FS := dictInsert fs p a

def fsLookup (fs : FS) (p : String) : Option Artifact := dictLookup fs p

/-- `os.path.exists`. -/
def fsExists (fs : FS) (p : String) : Bool := (fsLookup fs p).isSome

/-- `os.path.join` (`pj`) for the plain relative components used in the
source: joins with a path separator. -/
def pj (a b : String) : String := a ++ "/" ++ b

/-- `{v: k for k, v in label_to_id.items()}` (trainer.py line 54):
invert a dict by folding its items into a fresh dict. -/
def invertDict (d : List (String × ℕ)) : List (ℕ × String) :=
  d.foldl (fun acc p => dictInsert acc p.2 p.1) []

/-- The orchestrator state: the fields of `TrainerTextClassification`
that the verified operations read or write. -/
structure TrainerTextClassification where
  language_model : String
  use_auth_token : Bool
  multi_label : Bool
  output_dir : Option String
  label2id : List (String × ℕ)
  id2label : List (ℕ × String)
  problem_type : Option String
  model : Model
  best_model_path : String
  best_run_hyperparameters_path : String
  split_test : Option String
  split_train : Option String
  split_validation : Option String
  dataset_name : Option String
  dataset_type : Option String

/-- `__init__` (trainer.py lines 26-74).  The dataset/tokenizer steps
carry no state the verified claims read and are omitted; the external
`load_model` call is modelled by `loadModel`.  With `output_dir = None`,
line 69 `pj(self.output_dir, 'best_model')` raises `TypeError` before
any assertion is reached, so construction fails. -/
def construct (language_model : String) (label_to_id : List (String × ℕ))
    (split_test split_train split_validation : Option String)
    (use_auth_token multi_label : Bool)
    (dataset_name dataset_type : Option String)
    (output_dir : Option String) : Except String TrainerTextClassification :=
  let id2labelD := invertDict label_to_id
  let problem_type := if multi_label then some "multi_label_classification" else none
  let model := loadModel language_model
  match output_dir with
  | none => .error "TypeError: os.path.join received NoneType"
  | some d =>
      .ok { language_model := language_model
            use_auth_token := use_auth_token
            multi_label := multi_label
            output_dir := some d
            label2id := label_to_id
            id2label := id2labelD
            problem_type := problem_type
            model := model
            best_model_path := pj d "best_model"
            best_run_hyperparameters_path := pj d "best_run_hyperparameters.json"
            split_test := split_test
            split_train := split_train
            split_validation := split_validation
            dataset_name := dataset_name
            dataset_type := dataset_type }

/-- `if output_dir is not None: self.output_dir = output_dir`
(the opening lines of `train`, `evaluate` and `push_to_hub`). -/
def updateOutputDir (st : TrainerTextClassification) (od : Option String) :
    TrainerTextClassification :=
  match od with
  | some d => { st with output_dir := some d }
  | none => st

/-- `if split_test is not None: self.split_test = split_test`. -/
def updateSplitTest (st : TrainerTextClassification) (s : Option String) :
    TrainerTextClassification :=
  match s with
  | some v => { st with split_test := some v }
  | none => st

/-- `if split_train is not None: self.split_train = split_train`. -/
def updateSplitTrain (st : TrainerTextClassification) (s : Option String) :
    TrainerTextClassification :=
  match s with
  | some v => { st with split_train := some v }
  | none => st

/-- `if split_validation is not None: self.split_validation = ...`. -/
def updateSplitValidation (st : TrainerTextClassification) (s : Option String) :
    TrainerTextClassification :=
  match s with
  | some v => { st with split_validation := some v }
  | none => st

/-- `if dataset_name is not None: self.dataset_name = dataset_name`. -/
def updateDatasetName (st : TrainerTextClassification) (s : Option String) :
    TrainerTextClassification :=
  match s with
  | some v => { st with dataset_name := some v }
  | none => st

/-- `if dataset_type is not None: self.dataset_type = dataset_type`. -/
def updateDatasetType (st : TrainerTextClassification) (s : Option String) :
    TrainerTextClassification :=
  match s with
  | some v => { st with dataset_type := some v }
  | none => st

/-- The `export_file` property (trainer.py lines 76-79): asserts the
output location is set and returns `f"{self.output_dir}/metric.json"`. -/
def TrainerTextClassification.exportFile (st : TrainerTextClassification) :
    Except String String :=
  match st.output_dir with
  | none => .error "output_dir is not defined"
  | some d => .ok (d ++ "/metric.json")

/-- Model-source selection in `evaluate` (trainer.py line 201):
`self.language_model if not os.path.exists(self.best_model_path) else
self.best_model_path`. -/
def evalModelSource (st : TrainerTextClassification) (fs : FS) : String :=
  if fsExists fs st.best_model_path then st.best_model_path else st.language_model

/-- `sigmoid` (trainer.py lines 90-91): `1 / (1 + math.exp(-x))`, with
the float arithmetic modelled over the reals. -/
noncomputable def sigmoid (x : ℝ) : ℝ := 1 / (1 + Real.exp (-x))

/-- One entry of the multi-label prediction (trainer.py lines 96/104):
`int(sigmoid(j) > 0.5)`. -/
noncomputable def mlPredictEntry (j : ℝ) : ℕ :=
  if 1 / 2 < sigmoid j then 1 else 0

/-- Maximum of a list of logits (the value `np.argmax` locates): head
seeded fold, `0` for the empty list. -/
noncomputable def listMax : List ℝ → ℝ
  | [] => 0
  | a :: l => l.foldl max a

/-- Modelled from the spec / numpy semantics: `np.argmax` over one row
of logits (trainer.py lines 98/106) returns the index of the first
occurrence of the maximal entry (`0` for the empty row). -/
noncomputable def npArgmax : List ℝ → ℕ
  | [] => 0
  | [_] => 0
  | a :: b :: l => if a < listMax (b :: l) then npArgmax (b :: l) + 1 else 0

/-- Per-example label data: a class id in single-label mode, a binary
indicator vector in multi-label mode.  Used both for references and for
the predictions derived from logits. -/
inductive LabelData where
  | single (l : List ℕ)
  | multi (m : List (List ℕ))

/-- The prediction step shared by `compute_metric_search` and
`compute_metric_all` (trainer.py lines 95-98 and 103-106): in
multi-label mode `[[int(sigmoid(j) > 0.5) for j in i] for i in logits]`,
in single-label mode `np.argmax(logits, axis=-1)`. -/
noncomputable def predictionsOf (multiLabel : Bool) (logits : List (List ℝ)) : LabelData :=
  if multiLabel then .multi (logits.map (fun i => i.map mlPredictEntry))
  else .single (logits.map npArgmax)

/-- True positives of class `c` among paired predictions/references. -/
def tpCount (p r : List ℕ) (c : ℕ) : ℕ :=
  ((p.zip r).filter (fun x => x.1 == c && x.2 == c)).length

/-- False positives of class `c`. -/
def fpCount (p r : List ℕ) (c : ℕ) : ℕ :=
  ((p.zip r).filter (fun x => x.1 == c && x.2 != c)).length

/-- False negatives of class `c`. -/
def fnCount (p r : List ℕ) (c : ℕ) : ℕ :=
  ((p.zip r).filter (fun x => x.1 != c && x.2 == c)).length

/-- F1 from pooled counts: `2tp / (2tp + fp + fn)`, `0` when the
denominator vanishes. -/
def f1OfCounts (tp fp fn : ℕ) : ℚ :=
  if 2 * tp + fp + fn = 0 then 0 else (2 * tp : ℚ) / ((2 * tp + fp + fn : ℕ) : ℚ)

/-- The classes a single-label F1 averages over: the distinct class ids
occurring among references or predictions. -/
def classesOf (p r : List ℕ) : List ℕ := (r ++ p).dedup

/-- Modelled from the spec (glossary): micro-F1 for single-label data
pools true/false positive/negative counts across classes. -/
def microF1Single (p r : List ℕ) : ℚ :=
  let cs := classesOf p r
  f1OfCounts ((cs.map (tpCount p r)).sum) ((cs.map (fpCount p r)).sum)
    ((cs.map (fnCount p r)).sum)

/-- Modelled from the spec (glossary): macro-F1 for single-label data
averages per-class F1 unweighted. -/
def macroF1Single (p r : List ℕ) : ℚ :=
  let cs := classesOf p r
  if cs.length = 0 then 0
  else ((cs.map (fun c => f1OfCounts (tpCount p r c) (fpCount p r c) (fnCount p r c))).sum)
    / (cs.length : ℚ)

/-- Exact-match fraction over paired rows. -/
def exactMatch {α : Type} [DecidableEq α] (p r : List α) : ℚ :=
  if p.length = 0 then 0
  else (((p.zip r).filter (fun x => x.1 == x.2)).length : ℚ) / (p.length : ℚ)

/-- All (prediction, reference) decisions of a multi-label matrix,
pooled over examples and label positions. -/
def flatPairs (p r : List (List ℕ)) : List (ℕ × ℕ) :=
  ((p.zip r).map (fun x => x.1.zip x.2)).flatten

/-- Modelled from the spec (glossary): micro-F1 for multi-label data
pools the binary decisions of all examples and label positions. -/
def microF1Multi (p r : List (List ℕ)) : ℚ :=
  let fp := flatPairs p r
  f1OfCounts ((fp.filter (fun x => x.1 == 1 && x.2 == 1)).length)
    ((fp.filter (fun x => x.1 == 1 && x.2 != 1)).length)
    ((fp.filter (fun x => x.1 != 1 && x.2 == 1)).length)

/-- Column `j` of a multi-label matrix. -/
def columnOf (m : List (List ℕ)) (j : ℕ) : List ℕ := m.map (fun row => row.getD j 0)

/-- Binary F1 of one label position (positive class `1`). -/
def binaryF1 (pc rc : List ℕ) : ℚ :=
  f1OfCounts (tpCount pc rc 1) (fpCount pc rc 1) (fnCount pc rc 1)

/-- Modelled from the spec (glossary): macro-F1 for multi-label data
averages the binary F1 of each label position unweighted. -/
def macroF1Multi (p r : List (List ℕ)) : ℚ :=
  let k := (r.headD []).length
  if k = 0 then 0
  else ((List.range k).map (fun j => binaryF1 (columnOf p j) (columnOf r j))).sum / (k : ℚ)

/-- Micro-F1 dispatched on the label mode; a shape mismatch between
predictions and references raises in the external metric library and is
outside the modelled behaviour (value `0`). -/
def microF1 : LabelData → LabelData → ℚ
  | .single p, .single r => microF1Single p r
  | .multi p, .multi r => microF1Multi p r
  | _, _ => 0

/-- Macro-F1 dispatched on the label mode (cf. `microF1`). -/
def macroF1 : LabelData → LabelData → ℚ
  | .single p, .single r => macroF1Single p r
  | .multi p, .multi r => macroF1Multi p r
  | _, _ => 0

/-- Modelled from the spec: accuracy is the exact-match fraction (for
multi-label data, subset accuracy over whole rows). -/
def accuracyOf : LabelData → LabelData → ℚ
  | .single p, .single r => exactMatch p r
  | .multi p, .multi r => exactMatch p r
  | _, _ => 0

/-- The `(logits, labels)` pair the training engine hands to the metric
function: one row of logits per test example, plus references. -/
structure EvalPred where
  logits : List (List ℝ)
  refs : LabelData

/-- `compute_metric_all` (trainer.py lines 101-111): predictions from
the logits by mode, then the three-entry report
`{f1, f1_macro, accuracy}`. -/
noncomputable def computeMetricAll (multiLabel : Bool) (ep : EvalPred) :
    List (String × ℚ) :=
  let predictions := predictionsOf multiLabel ep.logits
  [("f1", microF1 predictions ep.refs),
   ("f1_macro", macroF1 predictions ep.refs),
   ("accuracy", accuracyOf predictions ep.refs)]

/-- Python `range(lo, hi)` over integers: `lo, lo+1, ..., hi-1`, empty
when `hi <= lo`. -/
def pythonRange (lo hi : ℤ) : List ℤ :=
  (List.range (hi - lo).toNat).map (fun i : ℕ => lo + (i : ℤ))

/-- The search space handed to the hyperparameter search (trainer.py
lines 163-167): a log-uniform learning-rate interval, the epoch choices
`list(range(search_range_epoch[0], search_range_epoch[1]))`, and the
batch-size choices. -/
structure SearchSpace where
  lrLo : ℚ
  lrHi : ℚ
  epochChoices : List ℤ
  batchChoices : List ℤ

/-- Build the search space from the (length-2) range lists. -/
def mkSearchSpace (lr : List ℚ) (ep : List ℤ) (batch : List ℤ) : SearchSpace :=
  { lrLo := lr.getD 0 0
    lrHi := lr.getD 1 0
    epochChoices := pythonRange (ep.getD 0 0) (ep.getD 1 0)
    batchChoices := batch }

/-- The winning trial returned by the external hyperparameter search
(`trainer.hyperparameter_search`, trainer.py lines 172-179), supplied to
the model as an oracle parameter: its hyperparameter dict. -/
structure BestRun where
  hyperparameters : List (String × Json)

/-- `TrainingArguments(output_dir=..., evaluation_strategy="steps",
eval_steps=eval_step, seed=random_seed)` (trainer.py lines 139-144) as
an attribute map. -/
def trainingArguments (outDir : String) (eval_step random_seed : ℤ) :
    List (String × Json) :=
  [("output_dir", .str outDir), ("evaluation_strategy", .str "steps"),
   ("eval_steps", .num (eval_step : ℚ)), ("seed", .num (random_seed : ℚ))]

/-- `for n, v in best_run.hyperparameters.items(): setattr(trainer.args,
n, v)` (trainer.py lines 184-185). -/
def applyHyperparameters (args : List (String × Json)) (hp : List (String × Json)) :
    List (String × Json) :=
  hp.foldl (fun a p => dictInsert a p.1 p.2) args

/-- Observable effects of `train`, in the order they are issued. -/
inductive Event where
  | runSearch (space : SearchSpace)
  | writeFile (path : String)
  | setHyperparameter (name : String)
  | setEvalStrategyNo
  | runTrain
  | saveModel (path : String)

/-- Outcome of `train`: the result (new state and store, or the message
of the assertion that fired) together with the effect trace. -/
structure TrainOut where
  result : Except String (TrainerTextClassification × FS)
  events : List Event

/-- `train` (trainer.py lines 115-191): update the output location and
splits, build the training arguments, check the search-range assertions,
run the external hyperparameter search (the oracle `best_run`), persist
the winning hyperparameters, apply them to the arguments, disable
periodic evaluation, retrain once, and save the best model.  The purely
pass-through parameters (`n_trials`, `parallel_cpu`, `ray_result_dir`)
configure only the external engine and are omitted. -/
noncomputable def TrainerTextClassification.train (st : TrainerTextClassification)
    (fs : FS) (output_dir : Option String) (random_seed eval_step : ℤ)
    (split_train split_validation : Option String)
    (search_range_lr : Option (List ℚ)) (search_range_epoch : Option (List ℤ))
    (search_list_batch : Option (List ℤ)) (best_run : BestRun) : TrainOut :=
  let st1 := updateOutputDir st output_dir
  match st1.output_dir with
  | none => ⟨.error "output_dir should be specified.", []⟩
  | some d =>
      let st2 := updateSplitValidation (updateSplitTrain st1 split_train) split_validation
      let args := trainingArguments d eval_step random_seed
      let lr := search_range_lr.getD [1 / 1000000, 1 / 10000]
      if lr.length = 2 then
        let ep := search_range_epoch.getD [1, 6]
        if ep.length = 2 then
          let batch := search_list_batch.getD [4, 8, 16, 32, 64]
          let space := mkSearchSpace lr ep batch
          let fs1 := fsWrite fs st2.best_run_hyperparameters_path
            (.json (.obj best_run.hyperparameters))
          let args1 := applyHyperparameters args best_run.hyperparameters
          let args2 := dictInsert args1 "evaluation_strategy" (.str "no")
          let model1 := trainModel st2.model args2
          let st3 := { st2 with model := model1 }
          let fs2 := fsWrite fs1 st2.best_model_path (.modelDir model1)
          ⟨.ok (st3, fs2),
            [Event.runSearch space, Event.writeFile st2.best_run_hyperparameters_path]
              ++ best_run.hyperparameters.map (fun p => Event.setHyperparameter p.1)
              ++ [Event.setEvalStrategyNo, Event.runTrain,
                  Event.saveModel st2.best_model_path]⟩
        else ⟨.error "len(search_range_epoch) should be 2", []⟩
      else ⟨.error "len(search_range_lr) should be 2", []⟩

/-- `json.dump` of a metric report, at the level of the JSON value. -/
def encodeMetrics (r : List (String × ℚ)) : Json :=
  .obj (r.map (fun kv => (kv.1, .num kv.2)))

/-- Decode the entries of a JSON object back into a metric report. -/
def decodeMetricEntries : List (String × Json) → Option (List (String × ℚ))
  | [] => some []
  | (k, .num q) :: rest => (decodeMetricEntries rest).map (fun t => (k, q) :: t)
  | _ => none

/-- `json.load` of a metric report, at the level of the JSON value. -/
def decodeMetrics : Json → Option (List (String × ℚ))
  | .obj entries => decodeMetricEntries entries
  | _ => none

/-- Read a metric report back from the store: look the path up and
decode the JSON artifact found there. -/
def readMetricArtifact (fs : FS) (p : String) : Option (List (String × ℚ)) :=
  match fsLookup fs p with
  | some (.json j) => decodeMetrics j
  | _ => none

/-- The dict comprehension `{k: v for k, v in trainer.evaluate().items()}`
(trainer.py line 213): an entrywise copy. -/
def dictCopy (l : List (String × ℚ)) : List (String × ℚ) :=
  l.map (fun kv => (kv.1, kv.2))

/-- What `evaluate` produces: the returned report, the updated
orchestrator state, and the store with the persisted artifact. -/
structure EvalOut where
  report : List (String × ℚ)
  state : TrainerTextClassification
  fs : FS

/-- `evaluate` (trainer.py lines 193-217): update the output location,
assert it is set, update the test split, reload the model from the best
persisted path if it exists (else from the original identifier), run
inference and the metric function over the test split (the external
engine, modelled from the spec, returns the supplied metric function's
output), persist the report at `export_file`, and return it. -/
noncomputable def TrainerTextClassification.evaluate (st : TrainerTextClassification)
    (fs : FS) (testData : EvalPred) (split_test output_dir : Option String) :
    Except String EvalOut :=
  let st1 := updateOutputDir st output_dir
  match st1.output_dir with
  | none => .error "output_dir should be specified."
  | some _ =>
      let st2 := updateSplitTest st1 split_test
      let st3 := { st2 with model := loadModel (evalModelSource st2 fs) }
      let result := dictCopy (computeMetricAll st3.multi_label testData)
      match st3.exportFile with
      | .error e => .error e
      | .ok path => .ok ⟨result, st3, fsWrite fs path (.json (encodeMetrics result))⟩

/-- A host shell: assigns every atomic command an exit status. -/
structure Shell where
  run : String → ℤ

/-- The atomic commands of the single `os.system` string issued by
`push_to_hub` (trainer.py lines 260-261), in order. -/
def publishCommands (model_alias : String) : List String :=
  ["cd " ++ model_alias, "git lfs install", "git add .",
   "git commit -m \x27model update\x27", "git push", "cd ../"]

/-- `&&`-chaining as the shell executes it: run the commands in order,
stop at the first nonzero status and return it, else return `0`. -/
def shellAnd (sh : Shell) : List String → ℤ
  | [] => 0
  | c :: cs => if sh.run c = 0 then shellAnd sh cs else sh.run c

/-- `os.system`: hand the command chain to the shell and return its exit
status to the caller (which is free to ignore it). -/
def osSystem (sh : Shell) (cmds : List String) : ℤ := shellAnd sh cmds

/-- Modelled from the spec: `get_readme` (`readme_template.py`, not
under `src/`) renders a human-readable report embedding the model name,
the metric-file path, the dataset identity and the split names. -/
def getReadme (model_name metric_file : String)
    (dataset_name dataset_type : Option String) (language_model : String)
    (split_test split_validation split_train : Option String) : String :=
  "# " ++ model_name ++ "\n" ++ metric_file ++ "\n"
    ++ (dataset_name.getD "") ++ " " ++ (dataset_type.getD "") ++ " "
    ++ language_model ++ "\n" ++ (split_test.getD "") ++ " "
    ++ (split_validation.getD "") ++ " " ++ (split_train.getD "")

/-- `push_to_hub` (trainer.py lines 219-261): update dataset metadata,
output location (asserting it is set) and splits, create the remote
repository (external, no modelled observable), render and write the
README, copy the best-hyperparameters artifact into the clone when it
exists, and issue the shell command chain — whose exit status `os.system`
returns and the method discards. -/
def TrainerTextClassification.push_to_hub (st : TrainerTextClassification)
    (fs : FS) (sh : Shell) (hf_organization model_alias : String)
    (split_train split_validation split_test : Option String)
    (dataset_name dataset_type output_dir : Option String) :
    Except String (TrainerTextClassification × FS) :=
  let st1 := updateDatasetType (updateDatasetName st dataset_name) dataset_type
  let st2 := updateOutputDir st1 output_dir
  match st2.output_dir with
  | none => .error "output_dir should be specified."
  | some _ =>
      let st3 := updateSplitTest
        (updateSplitValidation (updateSplitTrain st2 split_train) split_validation)
        split_test
      match st3.exportFile with
      | .error e => .error e
      | .ok metricPath =>
          let readme := getReadme (hf_organization ++ "/" ++ model_alias) metricPath
            st3.dataset_name st3.dataset_type st3.language_model
            st3.split_test st3.split_validation st3.split_train
          let fs1 := fsWrite fs (model_alias ++ "/README.md") (.text readme)
          let fs2 :=
            if fsExists fs1 st3.best_run_hyperparameters_path then
              fsWrite fs1 (pj model_alias "best_run_hyperparameters.json")
                ((fsLookup fs1 st3.best_run_hyperparameters_path).getD (.text ""))
            else fs1
          let _status := osSystem sh (publishCommands model_alias)
          .ok (st3, fs2)

/-- The computation returned `.ok` and its value satisfies `P`. -/
def okAnd {α : Type} (e : Except String α) (P : α → Prop) : Prop :=
  match e with
  | .ok a => P a
  | .error _ => False

/-- `Except` success as a Boolean. -/
def isOkB {α : Type} : Except String α → Bool
  | .ok _ => true
  | .error _ => false

/-- Whether an optional range list passes the length-2 assertion (a
missing list is replaced by a length-2 default). -/
def optLen2 {α : Type} : Option (List α) → Bool
  | none => true
  | some l => l.length == 2

/-- A concrete orchestrator state, as produced by a construction with
`output_dir = "ckpt"`, used to instantiate the witnesses. -/
def sampleState : TrainerTextClassification :=
  { language_model := "cardiffnlp/twitter-roberta-base"
    use_auth_token := false
    multi_label := false
    output_dir := some "ckpt"
    label2id := [("negative", 0), ("neutral", 1), ("positive", 2)]
    id2label := [(0, "negative"), (1, "neutral"), (2, "positive")]
    problem_type := none
    model := loadModel "cardiffnlp/twitter-roberta-base"
    best_model_path := "ckpt/best_model"
    best_run_hyperparameters_path := "ckpt/best_run_hyperparameters.json"
    split_test := some "test"
    split_train := some "train"
    split_validation := some "validation"
    dataset_name := none
    dataset_type := none }

/-- A concrete store that already holds a persisted best model. -/
def sampleFS : FS :=
  [("ckpt/best_model", .modelDir (loadModel "ckpt/best_model"))]

/-- A concrete test-split payload (two examples, two logits each). -/
noncomputable def sampleEvalPred : EvalPred :=
  { logits := [[1, -1], [0, 2]], refs := .single [0, 1] }

/-- A concrete winning trial. -/
def sampleBestRun : BestRun :=
  { hyperparameters :=
      [("learning_rate", .num (1 / 100000)), ("num_train_epochs", .num 3),
       ("per_device_train_batch_size", .num 16)] }

/-- A concrete shell on which exactly `git push` fails. -/
def pushFailShell : Shell :=
  { run := fun c => if c = "git push" then 1 else 0 }

section Lemmas

@[simp] theorem updateOutputDir_output_dir_none (st : TrainerTextClassification) :
    (updateOutputDir st none).output_dir = st.output_dir := rfl

@[simp] theorem updateOutputDir_output_dir_some (st : TrainerTextClassification)
    (d : String) : (updateOutputDir st (some d)).output_dir = some d := rfl

@[simp] theorem updateOutputDir_multi_label (st : TrainerTextClassification)
    (od : Option String) : (updateOutputDir st od).multi_label = st.multi_label := by
  cases od <;> rfl

@[simp] theorem updateOutputDir_language_model (st : TrainerTextClassification)
    (od : Option String) : (updateOutputDir st od).language_model = st.language_model := by
  cases od <;> rfl

@[simp] theorem updateOutputDir_best_model_path (st : TrainerTextClassification)
    (od : Option String) : (updateOutputDir st od).best_model_path = st.best_model_path := by
  cases od <;> rfl

@[simp] theorem updateOutputDir_best_run_hyperparameters_path
    (st : TrainerTextClassification) (od : Option String) :
    (updateOutputDir st od).best_run_hyperparameters_path =
      st.best_run_hyperparameters_path := by
  cases od <;> rfl

@[simp] theorem updateOutputDir_model (st : TrainerTextClassification)
    (od : Option String) : (updateOutputDir st od).model = st.model := by
  cases od <;> rfl

@[simp] theorem updateSplitTest_output_dir (st : TrainerTextClassification)
    (s : Option String) : (updateSplitTest st s).output_dir = st.output_dir := by
  cases s <;> rfl

@[simp] theorem updateSplitTest_multi_label (st : TrainerTextClassification)
    (s : Option String) : (updateSplitTest st s).multi_label = st.multi_label := by
  cases s <;> rfl

@[simp] theorem updateSplitTest_language_model (st : TrainerTextClassification)
    (s : Option String) : (updateSplitTest st s).language_model = st.language_model := by
  cases s <;> rfl

@[simp] theorem updateSplitTest_best_model_path (st : TrainerTextClassification)
    (s : Option String) : (updateSplitTest st s).best_model_path = st.best_model_path := by
  cases s <;> rfl

@[simp] theorem updateSplitTrain_output_dir (st : TrainerTextClassification)
    (s : Option String) : (updateSplitTrain st s).output_dir = st.output_dir := by
  cases s <;> rfl

@[simp] theorem updateSplitTrain_model (st : TrainerTextClassification)
    (s : Option String) : (updateSplitTrain st s).model = st.model := by
  cases s <;> rfl

@[simp] theorem updateSplitTrain_best_model_path (st : TrainerTextClassification)
    (s : Option String) : (updateSplitTrain st s).best_model_path = st.best_model_path := by
  cases s <;> rfl

@[simp] theorem updateSplitTrain_best_run_hyperparameters_path
    (st : TrainerTextClassification) (s : Option String) :
    (updateSplitTrain st s).best_run_hyperparameters_path =
      st.best_run_hyperparameters_path := by
  cases s <;> rfl

@[simp] theorem updateSplitValidation_output_dir (st : TrainerTextClassification)
    (s : Option String) : (updateSplitValidation st s).output_dir = st.output_dir := by
  cases s <;> rfl

@[simp] theorem updateSplitValidation_model (st : TrainerTextClassification)
    (s : Option String) : (updateSplitValidation st s).model = st.model := by
  cases s <;> rfl

@[simp] theorem updateSplitValidation_best_model_path (st : TrainerTextClassification)
    (s : Option String) :
    (updateSplitValidation st s).best_model_path = st.best_model_path := by
  cases s <;> rfl

@[simp] theorem updateSplitValidation_best_run_hyperparameters_path
    (st : TrainerTextClassification) (s : Option String) :
    (updateSplitValidation st s).best_run_hyperparameters_path =
      st.best_run_hyperparameters_path := by
  cases s <;> rfl

@[simp] theorem updateDatasetName_output_dir (st : TrainerTextClassification)
    (s : Option String) : (updateDatasetName st s).output_dir = st.output_dir := by
  cases s <;> rfl

@[simp] theorem updateDatasetType_output_dir (st : TrainerTextClassification)
    (s : Option String) : (updateDatasetType st s).output_dir = st.output_dir := by
  cases s <;> rfl

@[simp] theorem updateSplitTest_split_output_dir_chain (st : TrainerTextClassification)
    (a b c : Option String) :
    (updateSplitTest (updateSplitValidation (updateSplitTrain st a) b) c).output_dir
      = st.output_dir := by
  simp

theorem evalModelSource_updateSplitTest (st : TrainerTextClassification)
    (s : Option String) (fs : FS) :
    evalModelSource (updateSplitTest st s) fs = evalModelSource st fs := by
  unfold evalModelSource
  cases s <;> rfl

theorem evalModelSource_updateOutputDir (st : TrainerTextClassification)
    (od : Option String) (fs : FS) :
    evalModelSource (updateOutputDir st od) fs = evalModelSource st fs := by
  unfold evalModelSource
  cases od <;> rfl

@[simp] theorem modelSet_multi_label (st : TrainerTextClassification) (m : Model) :
    ({ st with model := m } : TrainerTextClassification).multi_label = st.multi_label := rfl

@[simp] theorem modelSet_output_dir (st : TrainerTextClassification) (m : Model) :
    ({ st with model := m } : TrainerTextClassification).output_dir = st.output_dir := rfl

@[simp] theorem modelSet_model (st : TrainerTextClassification) (m : Model) :
    ({ st with model := m } : TrainerTextClassification).model = m := rfl

theorem exportFile_eq (st : TrainerTextClassification) (d : String)
    (h : st.output_dir = some d) : st.exportFile = .ok (d ++ "/metric.json") := by
  unfold TrainerTextClassification.exportFile
  rw [h]

@[simp] theorem okAnd_ok {α : Type} (a : α) (P : α → Prop) :
    okAnd (.ok a) P ↔ P a := Iff.rfl

theorem dictLookup_insert_self {α β : Type} [DecidableEq α]
    (d : List (α × β)) (k : α) (v : β) : dictLookup (dictInsert d k v) k = some v := by
  induction d with
  | nil => simp [dictInsert, dictLookup]
  | cons hd tl ih =>
      obtain ⟨k0, v0⟩ := hd
      by_cases hk : k0 = k
      · subst hk
        simp [dictInsert, dictLookup]
      · simp only [dictInsert, dictLookup, if_neg hk]
        exact ih

theorem dictLookup_insert_ne {α β : Type} [DecidableEq α]
    (d : List (α × β)) (k0 k : α) (v : β) (h : k0 ≠ k) :
    dictLookup (dictInsert d k0 v) k = dictLookup d k := by
  induction d with
  | nil => simp [dictInsert, dictLookup, h]
  | cons hd tl ih =>
      obtain ⟨k1, v1⟩ := hd
      by_cases hk : k1 = k0
      · subst hk
        simp [dictInsert, dictLookup, h]
      · simp only [dictInsert, dictLookup, if_neg hk]
        by_cases hk2 : k1 = k
        · simp [hk2]
        · simp only [if_neg hk2]
          exact ih

@[simp] theorem dictCopy_eq (l : List (String × ℚ)) : dictCopy l = l := by
  induction l with
  | nil => rfl
  | cons hd tl ih => simp [dictCopy] at ih ⊢

theorem decodeMetrics_encodeMetrics (r : List (String × ℚ)) :
    decodeMetrics (encodeMetrics r) = some r := by
  unfold decodeMetrics encodeMetrics
  induction r with
  | nil => rfl
  | cons hd tl ih =>
      simp only [List.map_cons, decodeMetricEntries] at ih ⊢
      rw [ih]
      rfl

theorem dictInsert_of_notMem {α β : Type} [DecidableEq α]
    (d : List (α × β)) (k : α) (v : β) (h : k ∉ d.map Prod.fst) :
    dictInsert d k v = d ++ [(k, v)] := by
  induction d with
  | nil => rfl
  | cons hd tl ih =>
      obtain ⟨k0, v0⟩ := hd
      simp only [List.map_cons, List.mem_cons, not_or] at h
      have hne : ¬ k0 = k := fun e => h.1 e.symm
      simp only [dictInsert, if_neg hne]
      rw [ih h.2]
      rfl

theorem invertDict_foldl (d : List (String × ℕ)) :
    ∀ acc : List (ℕ × String), (d.map Prod.snd).Nodup →
      (∀ v ∈ d.map Prod.snd, v ∉ acc.map Prod.fst) →
      d.foldl (fun a p => dictInsert a p.2 p.1) acc
        = acc ++ d.map (fun p => (p.2, p.1)) := by
  induction d with
  | nil => intro acc _ _; simp
  | cons hd tl ih =>
      intro acc hnd hdisj
      simp only [List.foldl_cons]
      rw [dictInsert_of_notMem acc hd.2 hd.1 (hdisj hd.2 (by simp))]
      simp only [List.map_cons, List.nodup_cons] at hnd
      rw [ih (acc ++ [(hd.2, hd.1)]) hnd.2 ?_]
      · simp
      · intro v hv
        simp only [List.map_append, List.mem_append, List.map_cons, List.map_nil,
          List.mem_singleton, not_or]
        refine ⟨hdisj v (by simp [hv]), ?_⟩
        intro he
        exact hnd.1 (he ▸ hv)

theorem invertDict_eq_swap (d : List (String × ℕ))
    (hv : (d.map Prod.snd).Nodup) :
    invertDict d = d.map (fun p => (p.2, p.1)) := by
  have := invertDict_foldl d [] hv (by simp)
  simpa [invertDict] using this

theorem dictLookup_swap (d : List (String × ℕ)) (hv : (d.map Prod.snd).Nodup) :
    ∀ p ∈ d, dictLookup (d.map (fun q => (q.2, q.1))) p.2 = some p.1 := by
  induction d with
  | nil => intro p hp; cases hp
  | cons hd tl ih =>
      intro p hp
      simp only [List.map_cons, List.nodup_cons] at hv
      rcases List.mem_cons.mp hp with rfl | hmem
      · simp [dictLookup]
      · have hne : hd.2 ≠ p.2 := by
          intro he
          exact hv.1 (he ▸ List.mem_map.mpr ⟨p, hmem, rfl⟩)
        simp only [List.map_cons, dictLookup, if_neg hne]
        exact ih hv.2 p hmem

theorem sigmoid_gt_half_iff (x : ℝ) : 1 / 2 < sigmoid x ↔ 0 < x := by
  unfold sigmoid
  have he : (0 : ℝ) < Real.exp (-x) := Real.exp_pos _
  constructor
  · intro h
    by_contra hx
    push_neg at hx
    have h1 : (1 : ℝ) ≤ Real.exp (-x) := by
      calc (1 : ℝ) = Real.exp 0 := (Real.exp_zero).symm
        _ ≤ Real.exp (-x) := Real.exp_le_exp.mpr (by linarith)
    have h3 : 1 / (1 + Real.exp (-x)) ≤ 1 / 2 :=
      one_div_le_one_div_of_le (by norm_num) (by linarith)
    linarith
  · intro h
    have h1 : Real.exp (-x) < 1 := by
      calc Real.exp (-x) < Real.exp 0 := Real.exp_lt_exp.mpr (by linarith)
        _ = 1 := Real.exp_zero
    have h2 : 1 / (1 + Real.exp (-x)) > 1 / 2 :=
      one_div_lt_one_div_of_lt (by linarith) (by linarith)
    linarith

theorem mlPredictEntry_eq_pos (j : ℝ) :
    mlPredictEntry j = if 0 < j then 1 else 0 := by
  unfold mlPredictEntry
  by_cases h : 0 < j
  · rw [if_pos ((sigmoid_gt_half_iff j).mpr h), if_pos h]
  · rw [if_neg (fun hc => h ((sigmoid_gt_half_iff j).mp hc)), if_neg h]

theorem foldl_max_comm (l : List ℝ) :
    ∀ a b : ℝ, l.foldl max (max a b) = max a (l.foldl max b) := by
  induction l with
  | nil => intro a b; simp
  | cons c l ih =>
      intro a b
      simp only [List.foldl_cons]
      rw [max_assoc]
      exact ih a (max b c)

theorem listMax_cons_cons (a b : ℝ) (m : List ℝ) :
    listMax (a :: b :: m) = max a (listMax (b :: m)) := by
  show (b :: m).foldl max a = max a (m.foldl max b)
  simp only [List.foldl_cons]
  have : max a b = max a (max b b) := by rw [max_self]
  rw [show m.foldl max (max a b) = max a (m.foldl max b) from foldl_max_comm m a b]

theorem npArgmax_spec (l : List ℝ) :
    ∀ a : ℝ, npArgmax (a :: l) < (a :: l).length ∧
      (a :: l).getD (npArgmax (a :: l)) 0 = listMax (a :: l) := by
  induction l with
  | nil =>
      intro a
      constructor
      · simp [npArgmax]
      · simp [npArgmax, listMax]
  | cons b m ih =>
      intro a
      have hmax := listMax_cons_cons a b m
      by_cases h : a < listMax (b :: m)
      · simp only [npArgmax, if_pos h]
        obtain ⟨ih1, ih2⟩ := ih b
        constructor
        · simpa using Nat.succ_lt_succ ih1
        · rw [List.getD_cons_succ, ih2, hmax, max_eq_right (le_of_lt h)]
      · simp only [npArgmax, if_neg h]
        constructor
        · simp
        · rw [List.getD_cons_zero, hmax, max_eq_left (not_lt.mp h)]

theorem error_ne_of_msg {α : Type} {m m' : String} (h : m ≠ m') :
    (Except.error m : Except String α) ≠ .error m' := by
  intro hc
  exact h (by injection hc)

theorem ne_error_of_isOkB {α : Type} (e : Except String α) (h : isOkB e = true)
    (m : String) : e ≠ .error m := by
  cases e with
  | ok a => intro hc; cases hc
  | error s => simp [isOkB] at h

theorem updateOutputDir_isSome (st : TrainerTextClassification) (od : Option String)
    (h : st.output_dir.isSome = true) :
    (updateOutputDir st od).output_dir.isSome = true := by
  cases od with
  | none => simpa using h
  | some d => rfl

/-- An optional range list that passes the length-2 assertion resolves,
after the default is filled in, to a list of length 2. -/
theorem optLen2_getD_length {α : Type} (o : Option (List α)) (dflt : List α)
    (hdf : dflt.length = 2) (h : optLen2 o = true) : (o.getD dflt).length = 2 := by
  cases o with
  | none => simpa using hdf
  | some l => simpa [optLen2] using h

/-- `push_to_hub` returns normally whenever its output-location
assertion passes: no later step of the method can fail, and in
particular the discarded `os.system` status cannot fail it. -/
theorem push_to_hub_isOk (st : TrainerTextClassification) (fs : FS) (sh : Shell)
    (org mAlias : String) (s1 s2 s3 dn dt od : Option String)
    (h : (updateOutputDir (updateDatasetType (updateDatasetName st dn) dt)
        od).output_dir.isSome = true) :
    isOkB (st.push_to_hub fs sh org mAlias s1 s2 s3 dn dt od) = true := by
  obtain ⟨d, hd⟩ := Option.isSome_iff_exists.mp h
  unfold TrainerTextClassification.push_to_hub TrainerTextClassification.exportFile
  simp only [hd, updateSplitTest_split_output_dir_chain, isOkB]

/-- Full unfolding of a successful `evaluate` run: the report is the
metric function's output, the model is reloaded from the selected
source, and the encoded report is written at `output_dir/metric.json`. -/
theorem evaluate_eq (st : TrainerTextClassification) (fs : FS) (data : EvalPred)
    (sp od : Option String) (d : String)
    (h : (updateOutputDir st od).output_dir = some d) :
    st.evaluate fs data sp od =
      .ok { report := computeMetricAll st.multi_label data
            state := { updateSplitTest (updateOutputDir st od) sp with
                        model := loadModel (evalModelSource st fs) }
            fs := fsWrite fs (d ++ "/metric.json")
              (.json (encodeMetrics (computeMetricAll st.multi_label data))) } := by
  have hsp : ((updateSplitTest (updateOutputDir st od) sp) :
      TrainerTextClassification).output_dir = some d := by
    rw [updateSplitTest_output_dir, h]
  have hsrc : evalModelSource (updateSplitTest (updateOutputDir st od) sp) fs
      = evalModelSource st fs := by
    rw [evalModelSource_updateSplitTest, evalModelSource_updateOutputDir]
  unfold TrainerTextClassification.evaluate TrainerTextClassification.exportFile
  simp only [h, hsp, hsrc, dictCopy_eq, modelSet_multi_label, updateSplitTest_multi_label,
    updateOutputDir_multi_label]

/-- `train` with a supplied learning-rate range of the wrong length:
the first search-range assertion fires, nothing else happens. -/
theorem train_error_lr (st : TrainerTextClassification) (fs : FS) (od : Option String)
    (seed step : ℤ) (s1 s2 : Option String) (l : List ℚ)
    (sep : Option (List ℤ)) (slb : Option (List ℤ)) (br : BestRun) (d : String)
    (hd : (updateOutputDir st od).output_dir = some d) (hl : l.length ≠ 2) :
    st.train fs od seed step s1 s2 (some l) sep slb br
      = ⟨.error "len(search_range_lr) should be 2", []⟩ := by
  unfold TrainerTextClassification.train
  simp only [hd, Option.getD_some, if_neg hl]

/-- `train` with a learning-rate range that passes the assertion but an
epoch range of the wrong length: the second assertion fires. -/
theorem train_error_ep (st : TrainerTextClassification) (fs : FS) (od : Option String)
    (seed step : ℤ) (s1 s2 : Option String) (slr : Option (List ℚ))
    (l2 : List ℤ) (slb : Option (List ℤ)) (br : BestRun) (d : String)
    (hd : (updateOutputDir st od).output_dir = some d)
    (hlr : optLen2 slr = true) (hl2 : l2.length ≠ 2) :
    st.train fs od seed step s1 s2 slr (some l2) slb br
      = ⟨.error "len(search_range_epoch) should be 2", []⟩ := by
  have hlen : (slr.getD [1 / 1000000, 1 / 10000]).length = 2 :=
    optLen2_getD_length slr _ rfl hlr
  unfold TrainerTextClassification.train
  simp only [hd, if_pos hlen, Option.getD_some, if_neg hl2]

/-- Full unfolding of a successful `train` run: both assertions pass,
the search runs, the hyperparameters are persisted, applied on top of
the initial training arguments together with the disabled evaluation
strategy, the model is retrained with those arguments and saved. -/
theorem train_eq_success (st : TrainerTextClassification) (fs : FS) (od : Option String)
    (seed step : ℤ) (s1 s2 : Option String) (slr : Option (List ℚ))
    (sep : Option (List ℤ)) (slb : Option (List ℤ)) (br : BestRun) (d : String)
    (hd : (updateOutputDir st od).output_dir = some d)
    (hlr : optLen2 slr = true) (hep : optLen2 sep = true) :
    st.train fs od seed step s1 s2 slr sep slb br =
      ⟨.ok
        ({ updateSplitValidation (updateSplitTrain (updateOutputDir st od) s1) s2 with
            model := trainModel st.model
              (dictInsert (applyHyperparameters (trainingArguments d step seed)
                br.hyperparameters) "evaluation_strategy" (.str "no")) },
          fsWrite (fsWrite fs st.best_run_hyperparameters_path
              (.json (.obj br.hyperparameters)))
            st.best_model_path
            (.modelDir (trainModel st.model
              (dictInsert (applyHyperparameters (trainingArguments d step seed)
                br.hyperparameters) "evaluation_strategy" (.str "no"))))),
        [Event.runSearch (mkSearchSpace (slr.getD [1 / 1000000, 1 / 10000])
            (sep.getD [1, 6]) (slb.getD [4, 8, 16, 32, 64])),
         Event.writeFile st.best_run_hyperparameters_path]
          ++ br.hyperparameters.map (fun p => Event.setHyperparameter p.1)
          ++ [Event.setEvalStrategyNo, Event.runTrain,
              Event.saveModel st.best_model_path]⟩ := by
  have hlen : (slr.getD [1 / 1000000, 1 / 10000]).length = 2 :=
    optLen2_getD_length slr _ rfl hlr
  have hlen2 : (sep.getD [1, 6]).length = 2 :=
    optLen2_getD_length sep _ rfl hep
  unfold TrainerTextClassification.train
  simp only [hd, if_pos hlen, if_pos hlen2, updateSplitValidation_model,
    updateSplitTrain_model, updateOutputDir_model,
    updateSplitValidation_best_model_path, updateSplitTrain_best_model_path,
    updateOutputDir_best_model_path,
    updateSplitValidation_best_run_hyperparameters_path,
    updateSplitTrain_best_run_hyperparameters_path,
    updateOutputDir_best_run_hyperparameters_path]

end Lemmas

/-- C5: the prediction step of metric computation yields, in multi-label
mode, a binary vector whose entry for each logit `j` is `1` exactly when
`sigmoid j > 1/2`, equivalently when `j > 0`, and `0` otherwise; in
single-label mode, the index of the maximal logit along the last axis
(the first such index, whose entry attains the row maximum). -/
theorem claim5_prediction_step :
    (∀ logits : List (List ℝ), predictionsOf true logits
        = .multi (logits.map (fun row => row.map (fun j => if 0 < j then 1 else 0))))
    ∧ (∀ logits : List (List ℝ),
        predictionsOf false logits = .single (logits.map npArgmax))
    ∧ (∀ (a : ℝ) (l : List ℝ), npArgmax (a :: l) < (a :: l).length ∧
        (a :: l).getD (npArgmax (a :: l)) 0 = listMax (a :: l)) := by
  refine ⟨?_, fun _ => rfl, fun a l => npArgmax_spec l a⟩
  intro logits
  have hfn : mlPredictEntry = fun j : ℝ => if 0 < j then 1 else 0 :=
    funext mlPredictEntry_eq_pos
  simp [predictionsOf, hfn]

/-- C6: the id-to-label mapping derived at construction is the exact
inverse of the supplied label-to-id mapping: it has as many entries, and
looking up the id of any supplied pair returns its label. -/
theorem claim6_id2label_inverse (label_to_id : List (String × ℕ))
    (lm : String) (stest strain sval : Option String) (tok ml : Bool)
    (dn dt : Option String) (d : String)
    (hv : (label_to_id.map Prod.snd).Nodup) :
    okAnd (construct lm label_to_id stest strain sval tok ml dn dt (some d))
      (fun st => st.id2label.length = label_to_id.length ∧
        ∀ p ∈ label_to_id, dictLookup st.id2label p.2 = some p.1) := by
  simp only [construct, okAnd]
  constructor
  · rw [invertDict_eq_swap label_to_id hv]
    simp
  · intro p hp
    rw [invertDict_eq_swap label_to_id hv]
    exact dictLookup_swap label_to_id hv p hp

/-- Witness for C6 at a three-label mapping. -/
theorem claim6_id2label_inverse_witness :
    (([("negative", 0), ("neutral", 1), ("positive", 2)].map
        (Prod.snd (α := String) (β := ℕ))).Nodup)
    ∧ okAnd (construct "lm" [("negative", 0), ("neutral", 1), ("positive", 2)]
        none none none false false none none (some "out"))
      (fun st => st.id2label.length
          = [("negative", 0), ("neutral", 1), ("positive", 2)].length ∧
        ∀ p ∈ [("negative", 0), ("neutral", 1), ("positive", 2)],
          dictLookup st.id2label p.2 = some p.1) :=
  ⟨by decide,
   claim6_id2label_inverse [("negative", 0), ("neutral", 1), ("positive", 2)]
     "lm" none none none false false none none "out" (by decide)⟩

/-- C7: a report produced by `Evaluate` can be read back from the store
at its artifact location `output_dir/metric.json`, and decoding the
persisted JSON value reproduces the report exactly. -/
theorem claim7_report_roundtrip (st : TrainerTextClassification) (fs : FS)
    (data : EvalPred) (sp od : Option String) (d : String)
    (h : (updateOutputDir st od).output_dir = some d) :
    okAnd (st.evaluate fs data sp od)
      (fun o => readMetricArtifact o.fs (d ++ "/metric.json") = some o.report) := by
  rw [evaluate_eq st fs data sp od d h]
  simp only [okAnd_ok]
  unfold readMetricArtifact fsLookup fsWrite
  rw [dictLookup_insert_self]
  exact decodeMetrics_encodeMetrics _

/-- Witness for C7 at a concrete state, store and payload. -/
theorem claim7_report_roundtrip_witness :
    (updateOutputDir sampleState none).output_dir = some "ckpt"
    ∧ okAnd (sampleState.evaluate sampleFS sampleEvalPred none none)
      (fun o => readMetricArtifact o.fs ("ckpt" ++ "/metric.json") = some o.report) :=
  ⟨by decide,
   claim7_report_roundtrip sampleState sampleFS sampleEvalPred none none "ckpt"
     (by decide)⟩

/-- C10: the epoch candidates offered to the search are exactly the
integers of the half-open range: `mkSearchSpace` turns the bounds
`[lo, hi]` into `pythonRange lo hi`, membership in which is exactly
`lo ≤ x < hi`; the upper bound is never a candidate, and an empty range
yields no candidates. -/
theorem claim10_epoch_candidates (lo hi : ℤ) (lr : List ℚ) (batch : List ℤ) :
    (mkSearchSpace lr [lo, hi] batch).epochChoices = pythonRange lo hi
    ∧ (∀ x : ℤ, x ∈ pythonRange lo hi ↔ lo ≤ x ∧ x < hi)
    ∧ hi ∉ pythonRange lo hi
    ∧ (hi ≤ lo → pythonRange lo hi = []) := by
  have hmem : ∀ x : ℤ, x ∈ pythonRange lo hi ↔ lo ≤ x ∧ x < hi := by
    intro x
    simp only [pythonRange, List.mem_map, List.mem_range]
    constructor
    · rintro ⟨i, hi1, rfl⟩
      omega
    · rintro ⟨h1, h2⟩
      exact ⟨(x - lo).toNat, by omega, by omega⟩
  refine ⟨rfl, hmem, ?_, ?_⟩
  · intro hc
    have := (hmem hi).mp hc
    omega
  · intro hle
    unfold pythonRange
    have h0 : (hi - lo).toNat = 0 := by omega
    rw [h0]
    rfl

/-- Witness for C10: the range `[3, 1]` is empty and `2` lies in the
default range `[1, 6]`. -/
theorem claim10_epoch_candidates_witness :
    pythonRange 3 1 = [] ∧ ((2 : ℤ) ∈ pythonRange 1 6 ↔ (1 : ℤ) ≤ 2 ∧ (2 : ℤ) < 6) :=
  ⟨(claim10_epoch_candidates 3 1 [] []).2.2.2 (by decide),
   (claim10_epoch_candidates 1 6 [] []).2.1 2⟩

/-- C1: every `Evaluate` run returns a report whose keys are exactly
`f1`, `f1_macro`, `accuracy`, holding the micro-F1, macro-F1 and
accuracy of the test split, and persists the encoded report at
`output_dir/metric.json`. -/
theorem claim1_report_keys (st : TrainerTextClassification) (fs : FS)
    (data : EvalPred) (sp od : Option String) (d : String)
    (h : (updateOutputDir st od).output_dir = some d) :
    okAnd (st.evaluate fs data sp od)
      (fun o => o.report.map Prod.fst = ["f1", "f1_macro", "accuracy"]
        ∧ o.report =
            [("f1", microF1 (predictionsOf st.multi_label data.logits) data.refs),
             ("f1_macro", macroF1 (predictionsOf st.multi_label data.logits) data.refs),
             ("accuracy", accuracyOf (predictionsOf st.multi_label data.logits) data.refs)]
        ∧ fsLookup o.fs (d ++ "/metric.json")
            = some (.json (encodeMetrics o.report))) := by
  rw [evaluate_eq st fs data sp od d h]
  simp only [okAnd_ok]
  refine ⟨rfl, rfl, ?_⟩
  exact dictLookup_insert_self fs (d ++ "/metric.json") _

/-- Witness for C1 at a concrete state, store and payload. -/
theorem claim1_report_keys_witness :
    (updateOutputDir sampleState (some "out")).output_dir = some "out"
    ∧ okAnd (sampleState.evaluate [] sampleEvalPred none (some "out"))
      (fun o => o.report.map Prod.fst = ["f1", "f1_macro", "accuracy"]
        ∧ o.report =
            [("f1", microF1 (predictionsOf sampleState.multi_label
                sampleEvalPred.logits) sampleEvalPred.refs),
             ("f1_macro", macroF1 (predictionsOf sampleState.multi_label
                sampleEvalPred.logits) sampleEvalPred.refs),
             ("accuracy", accuracyOf (predictionsOf sampleState.multi_label
                sampleEvalPred.logits) sampleEvalPred.refs)]
        ∧ fsLookup o.fs ("out" ++ "/metric.json")
            = some (.json (encodeMetrics o.report))) :=
  ⟨by decide,
   claim1_report_keys sampleState [] sampleEvalPred none (some "out") "out" (by decide)⟩

/-- C4: `evaluate` loads the model from the persisted best-model path
exactly when that path exists in the store, from the originally
configured model identifier otherwise, and from no other source. -/
theorem claim4_model_source (st : TrainerTextClassification) (fs : FS)
    (data : EvalPred) (sp od : Option String) (d : String)
    (h : (updateOutputDir st od).output_dir = some d) :
    (fsExists fs st.best_model_path = true →
      evalModelSource st fs = st.best_model_path)
    ∧ (fsExists fs st.best_model_path = false →
        evalModelSource st fs = st.language_model)
    ∧ okAnd (st.evaluate fs data sp od)
        (fun o => o.state.model.source = evalModelSource st fs
          ∧ (o.state.model.source = st.best_model_path
              ∨ o.state.model.source = st.language_model)) := by
  refine ⟨?_, ?_, ?_⟩
  · intro hex
    unfold evalModelSource
    rw [hex]
    rfl
  · intro hex
    unfold evalModelSource
    rw [hex]
    rfl
  · rw [evaluate_eq st fs data sp od d h]
    simp only [okAnd_ok, modelSet_model]
    refine ⟨rfl, ?_⟩
    unfold evalModelSource loadModel
    by_cases hex : fsExists fs st.best_model_path
    · left
      simp [hex]
    · right
      simp [hex]

/-- Witness for C4: with the best model persisted the best path is
chosen; with an empty store the original identifier is chosen. -/
theorem claim4_model_source_witness :
    ((updateOutputDir sampleState none).output_dir = some "ckpt"
      ∧ fsExists sampleFS sampleState.best_model_path = true
      ∧ evalModelSource sampleState sampleFS = sampleState.best_model_path)
    ∧ (fsExists ([] : FS) sampleState.best_model_path = false
      ∧ evalModelSource sampleState [] = sampleState.language_model) :=
  ⟨⟨by decide, by decide,
    (claim4_model_source sampleState sampleFS sampleEvalPred none none "ckpt"
      (by decide)).1 (by decide)⟩,
   ⟨by decide,
    (claim4_model_source sampleState [] sampleEvalPred none none "ckpt"
      (by decide)).2.1 (by decide)⟩⟩

/-- C2 as stated is false: on a concrete shell where `git push` exits
nonzero, the chained command's status is nonzero, yet `push_to_hub`
still returns successfully — `os.system` hands the status back and the
method discards it, so the failure does not propagate. -/
theorem claim2_counterexample :
    ¬ (osSystem pushFailShell (publishCommands "twitter-roberta-base-sentiment") ≠ 0 →
        isOkB (sampleState.push_to_hub [] pushFailShell "cardiffnlp"
          "twitter-roberta-base-sentiment" none none none none none none) = false) := by
  decide

/-- C2 (amended): a failing shell command stops the rest of the `&&`
chain, but `push_to_hub` itself completes normally whenever its
output-location assertion passes: the nonzero exit status `os.system`
returns is discarded rather than propagated. -/
theorem claim2_shell_failure_discarded :
    (∀ (st : TrainerTextClassification) (fs : FS) (sh : Shell) (org mAlias : String)
        (s1 s2 s3 dn dt od : Option String),
        (updateOutputDir (updateDatasetType (updateDatasetName st dn) dt)
          od).output_dir.isSome = true →
        isOkB (st.push_to_hub fs sh org mAlias s1 s2 s3 dn dt od) = true)
    ∧ (∀ (sh : Shell) (c : String) (cs : List String),
        sh.run c ≠ 0 → shellAnd sh (c :: cs) = sh.run c) := by
  constructor
  · intro st fs sh org mAlias s1 s2 s3 dn dt od h
    obtain ⟨d, hd⟩ := Option.isSome_iff_exists.mp h
    unfold TrainerTextClassification.push_to_hub TrainerTextClassification.exportFile
    simp only [hd, updateSplitTest_split_output_dir_chain, isOkB]
  · intro sh c cs hc
    unfold shellAnd
    rw [if_neg hc]

/-- Witness for the amended C2: the concrete failing-push shell. -/
theorem claim2_shell_failure_discarded_witness :
    ((updateOutputDir (updateDatasetType (updateDatasetName sampleState none) none)
        none).output_dir.isSome = true
      ∧ isOkB (sampleState.push_to_hub [] pushFailShell "cardiffnlp"
          "twitter-roberta-base-sentiment" none none none none none none) = true)
    ∧ (pushFailShell.run "git push" ≠ 0
      ∧ shellAnd pushFailShell ("git push" :: ["cd ../"])
          = pushFailShell.run "git push") :=
  ⟨⟨by decide,
    claim2_shell_failure_discarded.1 sampleState [] pushFailShell "cardiffnlp"
      "twitter-roberta-base-sentiment" none none none none none none (by decide)⟩,
   ⟨by decide,
    claim2_shell_failure_discarded.2 pushFailShell "git push" ["cd ../"] (by decide)⟩⟩

/-- C3: if a supplied learning-rate or epoch-count search range does not
have length exactly 2, `train` fails with the corresponding assertion
and produces no events (so no trial is run); if both supplied lists have
length exactly 2, neither search-range assertion fires. -/
theorem claim3_search_range_length (st : TrainerTextClassification) (fs : FS)
    (od : Option String) (seed step : ℤ) (s1 s2 : Option String)
    (slr : Option (List ℚ)) (sep : Option (List ℤ)) (slb : Option (List ℤ))
    (br : BestRun) (d : String)
    (hd : (updateOutputDir st od).output_dir = some d) :
    ((optLen2 slr = false ∨ optLen2 sep = false) →
      ((st.train fs od seed step s1 s2 slr sep slb br).result
          = .error "len(search_range_lr) should be 2"
        ∨ (st.train fs od seed step s1 s2 slr sep slb br).result
          = .error "len(search_range_epoch) should be 2")
      ∧ (st.train fs od seed step s1 s2 slr sep slb br).events = [])
    ∧ (optLen2 slr = true → optLen2 sep = true →
        (st.train fs od seed step s1 s2 slr sep slb br).result
          ≠ .error "len(search_range_lr) should be 2"
        ∧ (st.train fs od seed step s1 s2 slr sep slb br).result
          ≠ .error "len(search_range_epoch) should be 2") := by
  constructor
  · intro hbad
    by_cases hlr : optLen2 slr = true
    · have hepf : optLen2 sep = false := by
        rcases hbad with hb | hb
        · rw [hlr] at hb; cases hb
        · exact hb
      obtain ⟨l2, rfl⟩ : ∃ l2, sep = some l2 := by
        cases sep with
        | none => simp [optLen2] at hepf
        | some l2 => exact ⟨l2, rfl⟩
      have hl2 : l2.length ≠ 2 := by simpa [optLen2] using hepf
      rw [train_error_ep st fs od seed step s1 s2 slr l2 slb br d hd hlr hl2]
      exact ⟨Or.inr rfl, rfl⟩
    · obtain ⟨l, rfl⟩ : ∃ l, slr = some l := by
        cases slr with
        | none => simp [optLen2] at hlr
        | some l => exact ⟨l, rfl⟩
      have hl : l.length ≠ 2 := by simpa [optLen2] using hlr
      rw [train_error_lr st fs od seed step s1 s2 l sep slb br d hd hl]
      exact ⟨Or.inl rfl, rfl⟩
  · intro hlr hep
    rw [train_eq_success st fs od seed step s1 s2 slr sep slb br d hd hlr hep]
    constructor
    · intro hc; cases hc
    · intro hc; cases hc

/-- Witness for C3: a length-1 learning-rate range makes `train` fail
with the assertion and an empty trace; two length-2 ranges fire neither
assertion. -/
theorem claim3_search_range_length_witness :
    (((sampleState.train [] none 42 100 none none (some [1]) none none
          sampleBestRun).result = .error "len(search_range_lr) should be 2"
      ∨ (sampleState.train [] none 42 100 none none (some [1]) none none
          sampleBestRun).result = .error "len(search_range_epoch) should be 2")
      ∧ (sampleState.train [] none 42 100 none none (some [1]) none none
          sampleBestRun).events = [])
    ∧ ((sampleState.train [] none 42 100 none none (some [1 / 100, 1 / 10])
          (some [2, 5]) none sampleBestRun).result
        ≠ .error "len(search_range_lr) should be 2"
      ∧ (sampleState.train [] none 42 100 none none (some [1 / 100, 1 / 10])
          (some [2, 5]) none sampleBestRun).result
        ≠ .error "len(search_range_epoch) should be 2") :=
  ⟨(claim3_search_range_length sampleState [] none 42 100 none none (some [1])
      none none sampleBestRun "ckpt" (by decide)).1 (Or.inl (by decide)),
   (claim3_search_range_length sampleState [] none 42 100 none none
      (some [1 / 100, 1 / 10]) (some [2, 5]) none sampleBestRun "ckpt"
      (by decide)).2 (by decide) (by decide)⟩

/-- C8: on a successful `train` call, after the search returns, the
events happen in exactly this order — persist the winning
hyperparameters, apply each of them to the training arguments, disable
periodic evaluation, retrain once, save the best model — and the store
afterwards holds the hyperparameter artifact and the model retrained
with the winning hyperparameters and `evaluation_strategy = "no"`. -/
theorem claim8_post_search_sequence (st : TrainerTextClassification) (fs : FS)
    (od : Option String) (seed step : ℤ) (s1 s2 : Option String)
    (slr : Option (List ℚ)) (sep : Option (List ℤ)) (slb : Option (List ℤ))
    (br : BestRun) (d : String)
    (hd : (updateOutputDir st od).output_dir = some d)
    (hlr : optLen2 slr = true) (hep : optLen2 sep = true)
    (hne : st.best_model_path ≠ st.best_run_hyperparameters_path) :
    ∃ (stF : TrainerTextClassification) (fsF : FS),
      st.train fs od seed step s1 s2 slr sep slb br = ⟨.ok (stF, fsF),
        [Event.runSearch (mkSearchSpace (slr.getD [1 / 1000000, 1 / 10000])
            (sep.getD [1, 6]) (slb.getD [4, 8, 16, 32, 64])),
         Event.writeFile st.best_run_hyperparameters_path]
          ++ br.hyperparameters.map (fun p => Event.setHyperparameter p.1)
          ++ [Event.setEvalStrategyNo, Event.runTrain,
              Event.saveModel st.best_model_path]⟩
      ∧ fsLookup fsF st.best_run_hyperparameters_path
          = some (.json (.obj br.hyperparameters))
      ∧ stF.model = trainModel st.model
          (dictInsert (applyHyperparameters (trainingArguments d step seed)
            br.hyperparameters) "evaluation_strategy" (.str "no"))
      ∧ fsLookup fsF st.best_model_path = some (.modelDir stF.model)
      ∧ dictLookup (dictInsert (applyHyperparameters (trainingArguments d step seed)
            br.hyperparameters) "evaluation_strategy" (.str "no"))
          "evaluation_strategy" = some (.str "no") := by
  refine ⟨_, _, train_eq_success st fs od seed step s1 s2 slr sep slb br d hd hlr hep,
    ?_, rfl, ?_, ?_⟩
  · show dictLookup (dictInsert (dictInsert fs _ _) _ _) _ = _
    rw [dictLookup_insert_ne _ _ _ _ hne, dictLookup_insert_self]
  · show dictLookup (dictInsert (dictInsert fs _ _) _ _) _ = _
    rw [dictLookup_insert_self]
  · rw [dictLookup_insert_self]

/-- Witness for C8 with the default search ranges and a concrete
winning trial. -/
theorem claim8_post_search_sequence_witness :
    (updateOutputDir sampleState none).output_dir = some "ckpt"
    ∧ optLen2 (none : Option (List ℚ)) = true
    ∧ optLen2 (none : Option (List ℤ)) = true
    ∧ sampleState.best_model_path ≠ sampleState.best_run_hyperparameters_path
    ∧ ∃ (stF : TrainerTextClassification) (fsF : FS),
      sampleState.train [] none 42 100 none none none none none sampleBestRun
        = ⟨.ok (stF, fsF),
          [Event.runSearch (mkSearchSpace ((none : Option (List ℚ)).getD
              [1 / 1000000, 1 / 10000]) ((none : Option (List ℤ)).getD [1, 6])
              ((none : Option (List ℤ)).getD [4, 8, 16, 32, 64])),
           Event.writeFile sampleState.best_run_hyperparameters_path]
            ++ sampleBestRun.hyperparameters.map (fun p => Event.setHyperparameter p.1)
            ++ [Event.setEvalStrategyNo, Event.runTrain,
                Event.saveModel sampleState.best_model_path]⟩
      ∧ fsLookup fsF sampleState.best_run_hyperparameters_path
          = some (.json (.obj sampleBestRun.hyperparameters))
      ∧ stF.model = trainModel sampleState.model
          (dictInsert (applyHyperparameters (trainingArguments "ckpt" 100 42)
            sampleBestRun.hyperparameters) "evaluation_strategy" (.str "no"))
      ∧ fsLookup fsF sampleState.best_model_path = some (.modelDir stF.model)
      ∧ dictLookup (dictInsert (applyHyperparameters (trainingArguments "ckpt" 100 42)
            sampleBestRun.hyperparameters) "evaluation_strategy" (.str "no"))
          "evaluation_strategy" = some (.str "no") :=
  ⟨by decide, by decide, by decide, by decide,
   claim8_post_search_sequence sampleState [] none 42 100 none none none none none
     sampleBestRun "ckpt" (by decide) (by decide) (by decide) (by decide)⟩

/-- C9: construction with an unset output location fails with the
`TypeError` of the path join, so every successfully constructed
orchestrator carries a set output location; the output-location update
at the head of each operation never unsets it, and the
`output_dir should be specified.` assertions of `train`, `evaluate` and
`push_to_hub` can never fire on such an instance. -/
theorem claim9_output_dir_invariant :
    (∀ (lm : String) (l2id : List (String × ℕ)) (t1 t2 t3 : Option String)
        (tok ml : Bool) (dn dt : Option String),
        construct lm l2id t1 t2 t3 tok ml dn dt none
          = .error "TypeError: os.path.join received NoneType")
    ∧ (∀ (lm : String) (l2id : List (String × ℕ)) (t1 t2 t3 : Option String)
        (tok ml : Bool) (dn dt : Option String) (d : String),
        okAnd (construct lm l2id t1 t2 t3 tok ml dn dt (some d))
          (fun st => st.output_dir.isSome = true))
    ∧ (∀ (st : TrainerTextClassification) (od : Option String),
        st.output_dir.isSome = true →
        (updateOutputDir st od).output_dir.isSome = true)
    ∧ (∀ (st : TrainerTextClassification) (fs : FS) (od : Option String)
        (seed step : ℤ) (s1 s2 : Option String) (slr : Option (List ℚ))
        (sep : Option (List ℤ)) (slb : Option (List ℤ)) (br : BestRun),
        st.output_dir.isSome = true →
        (st.train fs od seed step s1 s2 slr sep slb br).result
          ≠ .error "output_dir should be specified.")
    ∧ (∀ (st : TrainerTextClassification) (fs : FS) (data : EvalPred)
        (sp od : Option String), st.output_dir.isSome = true →
        st.evaluate fs data sp od ≠ .error "output_dir should be specified.")
    ∧ (∀ (st : TrainerTextClassification) (fs : FS) (sh : Shell)
        (org mAlias : String) (s1 s2 s3 dn dt od : Option String),
        st.output_dir.isSome = true →
        st.push_to_hub fs sh org mAlias s1 s2 s3 dn dt od
          ≠ .error "output_dir should be specified.") := by
  refine ⟨fun lm l2id t1 t2 t3 tok ml dn dt => rfl,
    fun lm l2id t1 t2 t3 tok ml dn dt d => by simp [construct, okAnd],
    fun st od h => updateOutputDir_isSome st od h, ?_, ?_, ?_⟩
  · intro st fs od seed step s1 s2 slr sep slb br h
    obtain ⟨d1, hd1⟩ := Option.isSome_iff_exists.mp (updateOutputDir_isSome st od h)
    by_cases hlr : optLen2 slr = true
    · by_cases hep : optLen2 sep = true
      · rw [train_eq_success st fs od seed step s1 s2 slr sep slb br d1 hd1 hlr hep]
        intro hc
        cases hc
      · obtain ⟨l2, rfl⟩ : ∃ l2, sep = some l2 := by
          cases sep with
          | none => simp [optLen2] at hep
          | some l2 => exact ⟨l2, rfl⟩
        have hl2 : l2.length ≠ 2 := by simpa [optLen2] using hep
        rw [train_error_ep st fs od seed step s1 s2 slr l2 slb br d1 hd1 hlr hl2]
        exact error_ne_of_msg (by decide)
    · obtain ⟨l, rfl⟩ : ∃ l, slr = some l := by
        cases slr with
        | none => simp [optLen2] at hlr
        | some l => exact ⟨l, rfl⟩
      have hl : l.length ≠ 2 := by simpa [optLen2] using hlr
      rw [train_error_lr st fs od seed step s1 s2 l sep slb br d1 hd1 hl]
      exact error_ne_of_msg (by decide)
  · intro st fs data sp od h
    obtain ⟨d1, hd1⟩ := Option.isSome_iff_exists.mp (updateOutputDir_isSome st od h)
    rw [evaluate_eq st fs data sp od d1 hd1]
    intro hc
    cases hc
  · intro st fs sh org mAlias s1 s2 s3 dn dt od h
    refine ne_error_of_isOkB _ (push_to_hub_isOk st fs sh org mAlias s1 s2 s3 dn dt od ?_) _
    apply updateOutputDir_isSome
    simpa using h

/-- Witness for C9 exercising the hypothesis-bearing conjuncts on the
concrete constructed state. -/
theorem claim9_output_dir_invariant_witness :
    (updateOutputDir sampleState none).output_dir.isSome = true
    ∧ (sampleState.train [] none 42 100 none none none none none
        sampleBestRun).result ≠ .error "output_dir should be specified."
    ∧ sampleState.evaluate sampleFS sampleEvalPred none none
        ≠ .error "output_dir should be specified."
    ∧ sampleState.push_to_hub [] pushFailShell "cardiffnlp"
        "twitter-roberta-base-sentiment" none none none none none none
        ≠ .error "output_dir should be specified." :=
  ⟨claim9_output_dir_invariant.2.2.1 sampleState none (by decide),
   claim9_output_dir_invariant.2.2.2.1 sampleState [] none 42 100 none none none
     none none sampleBestRun (by decide),
   claim9_output_dir_invariant.2.2.2.2.1 sampleState sampleFS sampleEvalPred none
     none (by decide),
   claim9_output_dir_invariant.2.2.2.2.2 sampleState [] pushFailShell "cardiffnlp"
     "twitter-roberta-base-sentiment" none none none none none none (by decide)⟩

end TweetNLP
